import Mathlib

/-!
Shallow embedding of `questionnaire/emails.py` from the fef-questionnaire
repository: the periodic email-reminder job.  The embedding covers
`_new_runinfo` (run creation and next-run advancement), `_send_email`
(one delivery attempt and its RunInfo bookkeeping) and the dispatch loop
of `send_emails` (eligibility checks, per-recipient logging, error
isolation).  Machine-level concerns (the ORM, SMTP transport, template
rendering) are abstracted exactly at the boundary the Python code uses
them: the database is explicit state, the outcome of one SMTP send is a
parameter, timestamps are integer epoch seconds.
-/

deriving instance DecidableEq for Except

/-- A calendar date, as carried by `subject.nextrun` (`datetime` in the
source; only year/month/day are ever read or written by this code). -/
structure Date where
  year : Nat
  month : Nat
  day : Nat
deriving DecidableEq, Repr

/-- A subject row (`Subject` model): the fields `emails.py` reads or
writes.  `nextrun` is the next scheduled run date, `state` gates run
creation, `formtype` gates email dispatch. -/
structure Subject where
  id : Nat
  surname : String
  givenname : String
  email : String
  formtype : String
  state : String
  nextrun : Date
deriving DecidableEq, Repr

/-- A RunInfo row (`RunInfo` model): `runid` is the foreign key to its
`Run` (a `Run` carries nothing but its `runid` string in this excerpt),
`subjectId` the foreign key to its subject.  `emailsent` is the epoch
second of the last successful send (`none` = never set),
`emailcount` is an integer so the sentinel `-1` is representable. -/
structure RunInfo where
  runid : String
  subjectId : Nat
  random : String
  emailcount : Int
  emailsent : Option Int
  lastemailerror : String
  questionset : Nat
deriving DecidableEq, Repr

/-- The relational store as seen by `emails.py`: the `Run` table (a run
is just its `runid` key here), the `RunInfo` table and the `Subject`
table. -/
structure DB where
  runs : List String
  runinfos : List RunInfo
  subjects : List Subject
deriving DecidableEq, Repr

/-- Modelled from the spec: `RunInfo.objects.get_or_create(run=run,
subject=subject)` looks the row up by the (run, subject) pair (the
`RunInfo` model itself lives in `models.py`, outside this excerpt; the
spec states RunInfo is keyed by the (subject, run) pair and reused when
present). -/
def findRunInfo (ris : List RunInfo) (runid : String) (sid : Nat) : Option RunInfo :=
  ris.find? (fun r => r.runid == runid && r.subjectId == sid)

/-- The next-run advancement of `_new_runinfo` (emails.py lines 59-63):
Feb 29 maps to Feb 28 of the following year, every other date keeps its
month and day with the year incremented. -/
def nextrunAfter (d : Date) : Date :=
  if d.month == 2 && d.day == 29 then ⟨d.year + 1, 2, 28⟩
  else ⟨d.year + 1, d.month, d.day⟩

/-- The body of `_new_runinfo(subject, questionset)` (emails.py lines
50-64) UNDER THE ASSUMPTION that the global name `Run` at line 52
resolves to the Run model — which in the staged module it does not (see
`newRuninfoCall`); this is the intended behavior, the one the docstring
of `_new_runinfo` and the spec describe.  `fresh` stands for the random
token `_new_random(subject)` would produce (its md5/random internals do
not matter to any property here).  Get-or-create of the `Run` keyed by
`str(nextrun.year)` and of the `RunInfo` keyed by (run, subject) is
modelled from the spec (the models live outside this excerpt): look up
first, create only when absent.  Returns the updated store and the
RunInfo the function returns. -/
def newRuninfo (db : DB) (s : Subject) (qs : Nat) (fresh : String) : DB × RunInfo :=
  let runid := toString s.nextrun.year
  let runs := if db.runs.contains runid then db.runs else db.runs ++ [runid]
  let found := findRunInfo db.runinfos runid s.id
  let created := found.isNone
  let r0 : RunInfo :=
    match found with
    | some r => r
    | none => { runid := runid, subjectId := s.id, random := "", emailcount := 0,
                emailsent := none, lastemailerror := "", questionset := 0 }
  let r1 := if created then { r0 with random := fresh, emailcount := 0 } else r0
  let r := { r1 with questionset := qs }
  let runinfos :=
    if created then db.runinfos ++ [r]
    else db.runinfos.map (fun x => if x.runid == runid && x.subjectId == s.id then r else x)
  let s' := { s with nextrun := nextrunAfter s.nextrun }
  let subjects := db.subjects.map (fun x => if x.id == s.id then s' else x)
  ({ runs := runs, runinfos := runinfos, subjects := subjects }, r)

/-- The model names emails.py line 17 binds:
`from .models import Subject, QuestionSet, RunInfo, Questionnaire`.
`Run` is not among them, and no other statement of the module binds
`Run` either. -/
def modelsImportedNames : List String := ["Subject", "QuestionSet", "RunInfo", "Questionnaire"]

/-- A call of `_new_runinfo(subject, questionset)` as staged: lines
50-51 read `subject.nextrun` and build the year key, then line 52
evaluates `Run.objects.get_or_create(runid=runid)`, which first
resolves the global name `Run`.  Because `Run` is bound by no import
and no definition in the module (`modelsImportedNames`), that lookup
raises `NameError` on every call, before any Run or RunInfo is read or
written and before the subject's `nextrun` is advanced: `newRuninfo`
(lines 52-64 under a resolved `Run`) is unreachable, and the error
propagates to `send_emails`, whose run-creation loop (line 136) has no
handler for it. -/
def newRuninfoCall (db : DB) (s : Subject) (qs : Nat) (fresh : String) : Except String (DB × RunInfo) :=
  if modelsImportedNames.contains "Run" then .ok (newRuninfo db s qs fresh)
  else .error "NameError: name Run is not defined"

/-- The outcome of one `msg.send()` call in `_send_email`, abstracting
the SMTP transport: success, one of the four `smtplib` exception classes
the code catches, or any other exception (which `_send_email` does not
catch; its message is what `str(e)` yields at the call site in
`send_emails`). -/
inductive SendOutcome where
  | success
  | recipientsRefused
  | heloError
  | senderRefused
  | dataError
  | otherError (msg : String)
deriving DecidableEq, Repr

/-- `_send_email(runinfo)` (emails.py lines 66-109), from the `try` at
line 90: on success the RunInfo gets `emailcount` incremented,
`emailsent` stamped to now and the accepted-by-server status, and the
function returns `True`; on each of the four classified SMTP exceptions
only `lastemailerror` is set and the function returns `False`; any other
exception propagates (modelled as `Except.error`).  The returned RunInfo
is the row as persisted by `runinfo.save()`. -/
def sendEmail (now : Int) (oc : SendOutcome) (r : RunInfo) : Except String (RunInfo × Bool) :=
  match oc with
  | .success => .ok ({ r with emailcount := 1 + r.emailcount, emailsent := some now, lastemailerror := "OK, accepted by server" }, true)
  | .recipientsRefused => .ok ({ r with lastemailerror := "SMTP Recipient Refused" }, false)
  | .heloError => .ok ({ r with lastemailerror := "SMTP Helo Error" }, false)
  | .senderRefused => .ok ({ r with lastemailerror := "SMTP Sender Refused" }, false)
  | .dataError => .ok ({ r with lastemailerror := "SMTP Data Error" }, false)
  | .otherError e => .error e

/-- Python's `str.startswith(pre)`, as used in `r.run.runid.startswith`
(emails.py line 141): character-level prefix test. -/
def strStartsWith (s pre : String) : Bool := pre.data.isPrefixOf s.data

/-- The eligibility tests of the dispatch loop (emails.py lines
141-145) for one RunInfo: skip `test:` runs, skip `emailcount == -1`,
attempt if `emailcount == 0` or (short-circuit `or`) the last
`emailsent` is strictly older than the precomputed cutoff `weekago`
(`WEEKAGO = time.time() - 604800`).  When `emailcount` is neither 0 nor
-1 and `emailsent` is unset, `r.emailsent.timetuple()` raises
(`emailsent` is `None`), and this happens before the `try` of line 146,
so the error propagates. -/
def shouldAttempt (weekago : Int) (r : RunInfo) : Except String Bool :=
  if strStartsWith r.runid "test:" then .ok false
  else if r.emailcount == -1 then .ok false
  else if r.emailcount == 0 then .ok true
  else match r.emailsent with
    | none => .error "AttributeError: NoneType object has no attribute timetuple"
    | some t => .ok (decide (t < weekago))

/-- One attempted delivery inside the `try` of emails.py lines 146-152:
the updated row and the log line `send_emails` appends for it — `OK` on
success, the row's `lastemailerror` on a classified SMTP failure, and
the `Exception: ...` line (run id, surname, message) when the send
raised anything else. -/
def attemptEmail (now : Int) (oc : SendOutcome) (s : Subject) (r : RunInfo) : RunInfo × String :=
  match sendEmail now oc r with
  | .ok (r', true) =>
      (r', "[" ++ r.runid ++ "] " ++ s.surname ++ ", " ++ s.givenname ++ ": OK")
  | .ok (r', false) =>
      (r', "[" ++ r.runid ++ "] " ++ s.surname ++ ", " ++ s.givenname ++ ": " ++ r'.lastemailerror)
  | .error e =>
      (r, "Exception: [" ++ r.runid ++ "] " ++ s.surname ++ ": " ++ e)

/-- The dispatch loop of `send_emails` (emails.py lines 140-152) over
the RunInfo rows its queryset yields.  `so` resolves a RunInfo's
subject foreign key (`r.subject`), `oc` gives the SMTP outcome of the
send for each row.  Returns the rows as left by the loop together with
`outlog`; a row failing its eligibility check with an exception aborts
the whole loop (that check sits outside the per-row `try`). -/
def dispatchLoop (weekago now : Int) (oc : RunInfo → SendOutcome) (so : Nat → Subject) :
    List RunInfo → Except String (List RunInfo × List String)
  | [] => .ok ([], [])
  | r :: rest =>
    match shouldAttempt weekago r with
    | .error e => .error e
    | .ok false =>
      (dispatchLoop weekago now oc so rest).map (fun p => (r :: p.1, p.2))
    | .ok true =>
      let a := attemptEmail now (oc r) (so r.subjectId) r
      (dispatchLoop weekago now oc so rest).map (fun p => (a.1 :: p.1, a.2 :: p.2))

/-- The queryset of emails.py line 137: the RunInfo rows the dispatch
loop iterates over are those whose owning subject has `formtype ==
'email'` and whose questionset belongs to the resolved questionnaire
(`qOf` maps a questionset id to its questionnaire name). -/
def iteratedRows (so : Nat → Subject) (qOf : Nat → String) (qname : String)
    (ris : List RunInfo) : List RunInfo :=
  ris.filter (fun r => (so r.subjectId).formtype == "email" && qOf r.questionset == qname)

/-- The loop skips row `r`: the row is kept as is and no log line is
produced for it, and the rest of the batch is processed exactly as it
would be on its own. -/
def dispatchSkips (w now : Int) (oc : RunInfo → SendOutcome) (so : Nat → Subject)
    (r : RunInfo) (rest : List RunInfo) : Prop :=
  dispatchLoop w now oc so (r :: rest) =
    (dispatchLoop w now oc so rest).map (fun p => (r :: p.1, p.2))

/-- The loop attempts delivery for row `r`: the row is updated and
logged as `attemptEmail` prescribes, and the rest of the batch is
processed exactly as it would be on its own. -/
def dispatchAttempts (w now : Int) (oc : RunInfo → SendOutcome) (so : Nat → Subject)
    (r : RunInfo) (rest : List RunInfo) : Prop :=
  dispatchLoop w now oc so (r :: rest) =
    (dispatchLoop w now oc so rest).map
      (fun p => ((attemptEmail now (oc r) (so r.subjectId) r).1 :: p.1,
                 (attemptEmail now (oc r) (so r.subjectId) r).2 :: p.2))

/-- At most one RunInfo row per (run, subject) pair — the uniqueness
invariant the spec states for the RunInfo table. -/
def uniqueRI (ris : List RunInfo) : Prop :=
  ∀ rid sid, ris.countP (fun r => r.runid == rid && r.subjectId == sid) ≤ 1

/-- Concrete subject used by witnesses. -/
def subjA : Subject :=
  { id := 1, surname := "Doe", givenname := "Jane", email := "a@example.org",
    formtype := "email", state := "active", nextrun := ⟨2009, 5, 1⟩ }

/-- Second concrete subject, due in the same year as `subjA`. -/
def subjB : Subject :=
  { id := 2, surname := "Roe", givenname := "Rick", email := "b@example.org",
    formtype := "email", state := "active", nextrun := ⟨2009, 7, 9⟩ }

/-- Subject whose next run falls on a leap day. -/
def subjLeap : Subject :=
  { id := 3, surname := "Lea", givenname := "Pia", email := "c@example.org",
    formtype := "email", state := "active", nextrun := ⟨2020, 2, 29⟩ }

/-- Concrete store used by witnesses. -/
def exDB : DB := { runs := [], runinfos := [], subjects := [subjA, subjB, subjLeap] }

/-- Concrete subject lookup used by witnesses. -/
def exSo : Nat → Subject := fun _ => subjA

/-- Concrete questionset-to-questionnaire map used by witnesses. -/
def exQof : Nat → String := fun _ => "quest"

/-- SMTP stub: every send succeeds. -/
def exOcSuccess : RunInfo → SendOutcome := fun _ => .success

/-- SMTP stub: every send hits a recipients-refused error. -/
def exOcRefused : RunInfo → SendOutcome := fun _ => .recipientsRefused

/-- SMTP stub: every send raises an unclassified exception. -/
def exOcBoom : RunInfo → SendOutcome := fun _ => .otherError "boom"

/-- A RunInfo of a test run that was last emailed at epoch second 0,
with a positive `emailcount`. -/
def rowTestOld : RunInfo :=
  { runid := "test:2009", subjectId := 1, random := "1zabc", emailcount := 3,
    emailsent := some 0, lastemailerror := "", questionset := 0 }

/-- A RunInfo of a test run that was never emailed. -/
def rowTestFresh : RunInfo :=
  { runid := "test:2009", subjectId := 1, random := "1zabc", emailcount := 0,
    emailsent := none, lastemailerror := "", questionset := 0 }

/-- A never-emailed RunInfo of an ordinary run. -/
def rowFresh : RunInfo :=
  { runid := "2009", subjectId := 1, random := "1zabc", emailcount := 0,
    emailsent := none, lastemailerror := "", questionset := 0 }

/-- A RunInfo emailed twice, last at epoch second 0. -/
def rowOld : RunInfo :=
  { runid := "2009", subjectId := 1, random := "1zabc", emailcount := 2,
    emailsent := some 0, lastemailerror := "", questionset := 0 }

/-- A suppressed RunInfo (`emailcount == -1`). -/
def rowSuppressed : RunInfo :=
  { runid := "2009", subjectId := 1, random := "1zabc", emailcount := -1,
    emailsent := none, lastemailerror := "", questionset := 0 }

/-- A RunInfo with a positive `emailcount` but no `emailsent`
timestamp. -/
def rowNoStamp : RunInfo :=
  { runid := "2009", subjectId := 1, random := "1zabc", emailcount := 2,
    emailsent := none, lastemailerror := "", questionset := 0 }

/-! ## Helper lemmas -/

/-- A test-run row never passes the eligibility checks. -/
theorem shouldAttempt_of_test {w : Int} {r : RunInfo}
    (ht : strStartsWith r.runid "test:" = true) : shouldAttempt w r = .ok false := by
  simp [shouldAttempt, ht]

/-- A suppressed row (`emailcount == -1`) never passes the eligibility
checks. -/
theorem shouldAttempt_of_suppressed {w : Int} {r : RunInfo}
    (h : r.emailcount = -1) : shouldAttempt w r = .ok false := by
  cases ht : strStartsWith r.runid "test:" <;> simp [shouldAttempt, ht, h]

/-- A never-sent non-test row always passes the eligibility checks. -/
theorem shouldAttempt_of_fresh {w : Int} {r : RunInfo}
    (ht : strStartsWith r.runid "test:" = false) (h : r.emailcount = 0) :
    shouldAttempt w r = .ok true := by
  simp [shouldAttempt, ht, h]

/-- For a non-test row already sent to (count neither 0 nor -1) with a
recorded `emailsent`, eligibility is exactly the strict age test. -/
theorem shouldAttempt_of_stamped {w t : Int} {r : RunInfo}
    (ht : strStartsWith r.runid "test:" = false) (h0 : r.emailcount ≠ 0)
    (h1 : r.emailcount ≠ -1) (hs : r.emailsent = some t) :
    shouldAttempt w r = .ok (decide (t < w)) := by
  have e1 : (r.emailcount == -1) = false := beq_eq_false_iff_ne.mpr h1
  have e0 : (r.emailcount == 0) = false := beq_eq_false_iff_ne.mpr h0
  simp [shouldAttempt, ht, e1, e0, hs]

/-- For a non-test row already sent to but with no recorded `emailsent`,
the eligibility check itself fails with an exception. -/
theorem shouldAttempt_of_unstamped {w : Int} {r : RunInfo}
    (ht : strStartsWith r.runid "test:" = false) (h0 : r.emailcount ≠ 0)
    (h1 : r.emailcount ≠ -1) (hs : r.emailsent = none) :
    shouldAttempt w r = .error "AttributeError: NoneType object has no attribute timetuple" := by
  have e1 : (r.emailcount == -1) = false := beq_eq_false_iff_ne.mpr h1
  have e0 : (r.emailcount == 0) = false := beq_eq_false_iff_ne.mpr h0
  simp [shouldAttempt, ht, e1, e0, hs]

/-- An ineligible row is skipped: kept as is, no log line. -/
theorem dispatchLoop_cons_skip {w now : Int} {oc : RunInfo → SendOutcome}
    {so : Nat → Subject} {r : RunInfo} {rest : List RunInfo}
    (h : shouldAttempt w r = .ok false) : dispatchSkips w now oc so r rest := by
  simp [dispatchSkips, dispatchLoop, h]

/-- An eligible row is attempted: updated and logged as `attemptEmail`
prescribes, independently of the rest of the batch. -/
theorem dispatchLoop_cons_attempt {w now : Int} {oc : RunInfo → SendOutcome}
    {so : Nat → Subject} {r : RunInfo} {rest : List RunInfo}
    (h : shouldAttempt w r = .ok true) : dispatchAttempts w now oc so r rest := by
  simp [dispatchAttempts, dispatchLoop, h]

/-- A row whose eligibility check raises aborts the whole loop. -/
theorem dispatchLoop_cons_error {w now : Int} {oc : RunInfo → SendOutcome}
    {so : Nat → Subject} {r : RunInfo} {rest : List RunInfo} {e : String}
    (h : shouldAttempt w r = .error e) :
    dispatchLoop w now oc so (r :: rest) = .error e := by
  simp [dispatchLoop, h]

/-- The `Run` table after `_new_runinfo`: unchanged when the year key
already exists, otherwise extended by exactly that key. -/
theorem newRuninfo_runs (db : DB) (s : Subject) (qs : Nat) (f : String) :
    (newRuninfo db s qs f).1.runs =
      if db.runs.contains (toString s.nextrun.year) then db.runs
      else db.runs ++ [toString s.nextrun.year] := rfl

/-- The `Subject` table after `_new_runinfo`: the processed subject's
`nextrun` is advanced, everything else is untouched. -/
theorem newRuninfo_subjects (db : DB) (s : Subject) (qs : Nat) (f : String) :
    (newRuninfo db s qs f).1.subjects =
      db.subjects.map (fun x => if x.id == s.id then { s with nextrun := nextrunAfter s.nextrun } else x) := rfl

/-- The RunInfo `_new_runinfo` returns always carries the year key of
the subject's current `nextrun`. -/
theorem newRuninfo_ret_runid (db : DB) (s : Subject) (qs : Nat) (f : String) :
    (newRuninfo db s qs f).2.runid = toString s.nextrun.year := by
  unfold newRuninfo
  cases hf : findRunInfo db.runinfos (toString s.nextrun.year) s.id with
  | none => simp [hf]
  | some r0 =>
    have hf' : List.find? (fun r => r.runid == toString s.nextrun.year && r.subjectId == s.id) db.runinfos = some r0 := by
      simpa [findRunInfo] using hf
    have hp := List.find?_some hf'
    simp only [Bool.and_eq_true, beq_iff_eq] at hp
    have : r0.runid = toString s.nextrun.year := hp.1
    simp [hf, this]

/-- The RunInfo `_new_runinfo` returns always carries the processed
subject's id. -/
theorem newRuninfo_ret_subjectId (db : DB) (s : Subject) (qs : Nat) (f : String) :
    (newRuninfo db s qs f).2.subjectId = s.id := by
  unfold newRuninfo
  cases hf : findRunInfo db.runinfos (toString s.nextrun.year) s.id with
  | none => simp [hf]
  | some r0 =>
    have hf' : List.find? (fun r => r.runid == toString s.nextrun.year && r.subjectId == s.id) db.runinfos = some r0 := by
      simpa [findRunInfo] using hf
    have hp := List.find?_some hf'
    simp only [Bool.and_eq_true, beq_iff_eq] at hp
    have : r0.subjectId = s.id := hp.2
    simp [hf, this]

/-- When a matching RunInfo row already exists, `_new_runinfo` returns
it with only its questionset reassigned, and only rewrites matching rows
in the table. -/
theorem newRuninfo_found (db : DB) (s : Subject) (qs : Nat) (f : String) (r0 : RunInfo)
    (hf : findRunInfo db.runinfos (toString s.nextrun.year) s.id = some r0) :
    (newRuninfo db s qs f).2 = { r0 with questionset := qs }
    ∧ (newRuninfo db s qs f).1.runinfos =
        db.runinfos.map (fun x => if x.runid == toString s.nextrun.year && x.subjectId == s.id then { r0 with questionset := qs } else x) := by
  unfold newRuninfo
  simp [hf]

/-- When no matching RunInfo row exists, `_new_runinfo` appends a fresh
row: the year key, the subject id, the fresh random token, a zero
`emailcount` and the assigned questionset. -/
theorem newRuninfo_created (db : DB) (s : Subject) (qs : Nat) (f : String)
    (hf : findRunInfo db.runinfos (toString s.nextrun.year) s.id = none) :
    (newRuninfo db s qs f).2 = { runid := toString s.nextrun.year, subjectId := s.id, random := f, emailcount := 0, emailsent := none, lastemailerror := "", questionset := qs }
    ∧ (newRuninfo db s qs f).1.runinfos = db.runinfos ++ [(newRuninfo db s qs f).2] := by
  unfold newRuninfo
  simp [hf]

/-! ## Claim theorems: email dispatch -/

/-- C5: a RunInfo with `emailcount == -1` is never attempted by the
dispatch loop and gets no log line, regardless of its `emailsent`
value or age: the loop keeps the row as is and produces exactly the
output it would produce without the row. -/
theorem suppressed_never_emailed (w now : Int) (oc : RunInfo → SendOutcome)
    (so : Nat → Subject) (r : RunInfo) (rest : List RunInfo)
    (h : r.emailcount = -1) :
    shouldAttempt w r = .ok false ∧ dispatchSkips w now oc so r rest := by
  have hs := @shouldAttempt_of_suppressed w r h
  exact ⟨hs, dispatchLoop_cons_skip hs⟩

/-- Witness for C5 at a concrete suppressed row. -/
theorem suppressed_never_emailed_witness :
    shouldAttempt 604800 rowSuppressed = .ok false
    ∧ dispatchSkips 604800 1209600 exOcSuccess exSo rowSuppressed [rowFresh] :=
  suppressed_never_emailed 604800 1209600 exOcSuccess exSo rowSuppressed [rowFresh] (by decide)

/-- C10: when the loop reaches a non-test RunInfo with positive
`emailcount` and no `emailsent` timestamp, the age comparison itself
raises (it sits outside the per-recipient `try`), so the whole batch
aborts with the error instead of logging and moving on. -/
theorem missing_emailsent_aborts_batch (w now : Int) (oc : RunInfo → SendOutcome)
    (so : Nat → Subject) (r : RunInfo) (rest : List RunInfo)
    (ht : strStartsWith r.runid "test:" = false) (hc : 0 < r.emailcount)
    (hs : r.emailsent = none) :
    shouldAttempt w r = .error "AttributeError: NoneType object has no attribute timetuple"
    ∧ dispatchLoop w now oc so (r :: rest) = .error "AttributeError: NoneType object has no attribute timetuple" := by
  have h0 : r.emailcount ≠ 0 := by omega
  have h1 : r.emailcount ≠ -1 := by omega
  have he := @shouldAttempt_of_unstamped w r ht h0 h1 hs
  exact ⟨he, dispatchLoop_cons_error he⟩

/-- Witness for C10 at a concrete stampless row: the batch result is an
error even though another sendable row follows. -/
theorem missing_emailsent_aborts_batch_witness :
    dispatchLoop 604800 1209600 exOcSuccess exSo [rowNoStamp, rowFresh] = .error "AttributeError: NoneType object has no attribute timetuple" :=
  (missing_emailsent_aborts_batch 604800 1209600 exOcSuccess exSo rowNoStamp [rowFresh] (by decide) (by decide) rfl).2

/-- C8: a successful send increments `emailcount` by exactly one,
stamps `emailsent` with the current time, records the accepted-by-server
status on the persisted row, reports success, and yields the `OK` log
line. -/
theorem send_success_updates (now : Int) (s : Subject) (r : RunInfo) :
    sendEmail now .success r = .ok ({ r with emailcount := 1 + r.emailcount, emailsent := some now, lastemailerror := "OK, accepted by server" }, true)
    ∧ (attemptEmail now .success s r).1.emailcount = r.emailcount + 1
    ∧ (attemptEmail now .success s r).1.emailsent = some now
    ∧ (attemptEmail now .success s r).1.lastemailerror = "OK, accepted by server"
    ∧ (attemptEmail now .success s r).2 = "[" ++ r.runid ++ "] " ++ s.surname ++ ", " ++ s.givenname ++ ": OK" := by
  refine ⟨rfl, ?_, rfl, rfl, rfl⟩
  simp [attemptEmail, sendEmail]
  omega

/-- C7: each of the four classified SMTP failures only rewrites
`lastemailerror` on the persisted row and reports failure — `emailcount`
and `emailsent` are untouched — and an attempted row never stops the
loop from processing the rest of the batch. -/
theorem smtp_failure_frame (now : Int) (r : RunInfo) :
    sendEmail now .recipientsRefused r = .ok ({ r with lastemailerror := "SMTP Recipient Refused" }, false)
    ∧ sendEmail now .heloError r = .ok ({ r with lastemailerror := "SMTP Helo Error" }, false)
    ∧ sendEmail now .senderRefused r = .ok ({ r with lastemailerror := "SMTP Sender Refused" }, false)
    ∧ sendEmail now .dataError r = .ok ({ r with lastemailerror := "SMTP Data Error" }, false)
    ∧ (∀ m, ({ r with lastemailerror := m } : RunInfo).emailcount = r.emailcount ∧ ({ r with lastemailerror := m } : RunInfo).emailsent = r.emailsent)
    ∧ (∀ (w : Int) (oc : RunInfo → SendOutcome) (so : Nat → Subject) (rest : List RunInfo),
        shouldAttempt w r = .ok true → dispatchAttempts w now oc so r rest) :=
  ⟨rfl, rfl, rfl, rfl, fun _ => ⟨rfl, rfl⟩, fun _ _ _ _ h => dispatchLoop_cons_attempt h⟩

/-- Witness for C7 at a concrete row whose send is refused. -/
theorem smtp_failure_frame_witness :
    sendEmail 1209600 .recipientsRefused rowOld = .ok ({ rowOld with lastemailerror := "SMTP Recipient Refused" }, false)
    ∧ dispatchAttempts 604800 1209600 exOcRefused exSo rowOld [] :=
  ⟨(smtp_failure_frame 1209600 rowOld).1,
   (smtp_failure_frame 1209600 rowOld).2.2.2.2.2 604800 exOcRefused exSo [] (by decide)⟩

/-- C9 counterexample: the claim says every per-attempt log line
records run id, surname, given name and the outcome, but the
unexpected-exception line of emails.py line 152 carries only run id,
surname and message: attempting `rowFresh` (subject surname `Doe`,
given name `Jane`) with an unclassified exception `boom` logs
`Exception: [2009] Doe: boom`, in which the given name `Jane` does not
occur at all. -/
theorem exception_line_omits_givenname :
    dispatchLoop 604800 1209600 exOcBoom exSo [rowFresh] = .ok ([rowFresh], ["Exception: [2009] Doe: boom"])
    ∧ (exSo rowFresh.subjectId).givenname = "Jane"
    ∧ ¬ List.IsInfix "Jane".data "Exception: [2009] Doe: boom".data
    ∧ List.IsInfix "Doe".data "Exception: [2009] Doe: boom".data :=
  ⟨by decide, rfl, by decide, by decide⟩

/-- C9 amended: for an attempted recipient, whatever the send outcome —
success, classified SMTP failure, or any other exception — the loop
records exactly one log line for it and processes the rest of the batch
exactly as it would on its own; the success and classified-failure
lines carry run id, surname, given name and the outcome, while an
unclassified exception is caught and logged with only the run id,
surname and exception message (no given name). -/
theorem send_errors_isolated (w now : Int) (oc : RunInfo → SendOutcome) (so : Nat → Subject)
    (r : RunInfo) (rest : List RunInfo) (h : shouldAttempt w r = .ok true) :
    dispatchAttempts w now oc so r rest
    ∧ ((dispatchLoop w now oc so rest).isOk = true → (dispatchLoop w now oc so (r :: rest)).isOk = true)
    ∧ (oc r = .success → (attemptEmail now (oc r) (so r.subjectId) r).2 = "[" ++ r.runid ++ "] " ++ (so r.subjectId).surname ++ ", " ++ (so r.subjectId).givenname ++ ": OK")
    ∧ (oc r = .recipientsRefused → (attemptEmail now (oc r) (so r.subjectId) r).2 = "[" ++ r.runid ++ "] " ++ (so r.subjectId).surname ++ ", " ++ (so r.subjectId).givenname ++ ": SMTP Recipient Refused")
    ∧ (∀ e, oc r = .otherError e → attemptEmail now (oc r) (so r.subjectId) r = (r, "Exception: [" ++ r.runid ++ "] " ++ (so r.subjectId).surname ++ ": " ++ e)) := by
  have ha := @dispatchLoop_cons_attempt w now oc so r rest h
  refine ⟨ha, ?_, ?_, ?_, ?_⟩
  · intro hok
    unfold dispatchAttempts at ha
    rw [ha]
    cases hrest : dispatchLoop w now oc so rest with
    | ok p => simp [Except.map, Except.isOk, Except.toBool]
    | error e => rw [hrest] at hok; simp [Except.isOk, Except.toBool] at hok
  · intro he
    simp [attemptEmail, sendEmail, he]
  · intro he
    simp [attemptEmail, sendEmail, he]
    rw [String.append_assoc]
    rfl
  · intro e he
    simp [attemptEmail, sendEmail, he]

/-- Witness for the amended C9 at a concrete row whose send raises an
unclassified
exception, followed by another row that is still processed. -/
theorem send_errors_isolated_witness :
    dispatchAttempts 604800 1209600 exOcBoom exSo rowFresh [rowSuppressed] :=
  (send_errors_isolated 604800 1209600 exOcBoom exSo rowFresh [rowSuppressed] (by decide)).1

/-- C4 counterexample: `rowTestOld` has `emailcount` 3 (neither 0 nor
-1) and was last sent at epoch second 0, strictly older than the cutoff
604800, yet the loop never emails it and logs nothing for it, because
its run id starts with `test:` — the claim, which ignores the test-run
skip, predicts a resend here. -/
theorem resend_claim_fails_on_test_run :
    rowTestOld.emailcount ≠ 0 ∧ rowTestOld.emailcount ≠ -1
    ∧ rowTestOld.emailsent = some 0 ∧ (0 : Int) < 604800
    ∧ shouldAttempt 604800 rowTestOld = .ok false
    ∧ dispatchLoop 604800 1209600 exOcSuccess exSo [rowTestOld] = .ok ([rowTestOld], []) :=
  ⟨by decide, by decide, rfl, by decide, by decide, by decide⟩

/-- C4 amended: for a RunInfo whose run id does not start with `test:`,
with `emailcount` neither 0 nor -1 and a recorded `emailsent` timestamp,
the loop emails it exactly when that timestamp is strictly older than
the seven-day cutoff: strictly older means attempted (one log line, row
updated by the send), otherwise skipped with no log line. -/
theorem resend_window_strict (w now : Int) (oc : RunInfo → SendOutcome) (so : Nat → Subject)
    (r : RunInfo) (rest : List RunInfo) (t : Int)
    (ht : strStartsWith r.runid "test:" = false) (h0 : r.emailcount ≠ 0)
    (h1 : r.emailcount ≠ -1) (hs : r.emailsent = some t) :
    (shouldAttempt w r = .ok true ↔ t < w)
    ∧ (t < w → dispatchAttempts w now oc so r rest)
    ∧ (w ≤ t → dispatchSkips w now oc so r rest) := by
  have hsa := @shouldAttempt_of_stamped w t r ht h0 h1 hs
  refine ⟨?_, ?_, ?_⟩
  · rw [hsa]; simp
  · intro hlt
    exact dispatchLoop_cons_attempt (by rw [hsa]; simp [hlt])
  · intro hge
    refine dispatchLoop_cons_skip ?_
    rw [hsa]
    simp
    omega

/-- Witness for the amended C4: a row last sent fourteen days before
the cutoff is attempted. -/
theorem resend_window_strict_witness :
    dispatchAttempts 604800 1209600 exOcSuccess exSo rowOld [] :=
  (resend_window_strict 604800 1209600 exOcSuccess exSo rowOld [] 0 (by decide) (by decide) (by decide) rfl).2.1 (by decide)

/-- C6 counterexample: `rowTestFresh` has `emailcount` 0 and is among
the rows the loop iterates over, yet no delivery attempt is made for it,
because its run id starts with `test:` — the claim, which ignores the
test-run skip, predicts an attempt here. -/
theorem fresh_claim_fails_on_test_run :
    rowTestFresh.emailcount = 0
    ∧ rowTestFresh ∈ iteratedRows exSo exQof "quest" [rowTestFresh]
    ∧ shouldAttempt 604800 rowTestFresh = .ok false
    ∧ dispatchLoop 604800 1209600 exOcSuccess exSo [rowTestFresh] = .ok ([rowTestFresh], []) :=
  ⟨rfl, by decide, by decide, by decide⟩

/-- C6 amended: every RunInfo the loop iterates over (owning subject
has formtype email under the resolved questionnaire) with
`emailcount == 0` and a run id not starting with `test:` passes the
eligibility check and gets a delivery attempt: the loop applies the
send to it and logs one line for it. -/
theorem fresh_runinfo_attempted (w now : Int) (oc : RunInfo → SendOutcome) (so : Nat → Subject)
    (qOf : Nat → String) (qname : String) (ris : List RunInfo)
    (r : RunInfo) (rest : List RunInfo)
    (hit : r ∈ iteratedRows so qOf qname ris)
    (h0 : r.emailcount = 0) (ht : strStartsWith r.runid "test:" = false) :
    shouldAttempt w r = .ok true ∧ dispatchAttempts w now oc so r rest := by
  have hsa := @shouldAttempt_of_fresh w r ht h0
  exact ⟨hsa, dispatchLoop_cons_attempt hsa⟩

/-- Witness for the amended C6: a never-emailed ordinary row is
attempted. -/
theorem fresh_runinfo_attempted_witness :
    shouldAttempt 604800 rowFresh = .ok true
    ∧ dispatchAttempts 604800 1209600 exOcSuccess exSo rowFresh [] :=
  fresh_runinfo_attempted 604800 1209600 exOcSuccess exSo exQof "quest" [rowFresh] rowFresh [] (by decide) rfl (by decide)

/-! ## Claim theorems: run creation -/

/-- Replacing elements without changing how a predicate sees them does
not change the predicate's count. -/
theorem countP_map_congr {α : Type} (g : α → α) (q : α → Bool) (l : List α)
    (h : ∀ x ∈ l, q (g x) = q x) : (l.map g).countP q = l.countP q := by
  induction l with
  | nil => rfl
  | cons x xs ih =>
    simp only [List.map_cons, List.countP_cons]
    rw [h x (by simp), ih (fun y hy => h y (by simp [hy]))]

/-- Intended behavior of the `_new_runinfo` body (unreachable while
the `Run` import is missing, see `newRuninfoCall`): it advances exactly
the processed subject's
`nextrun`, and the advancement is one year: Feb 29 maps to Feb 28 of
the following year, any other date keeps its month and day with the
year incremented. -/
theorem nextrun_advances_one_year (db : DB) (s : Subject) (qs : Nat) (f : String) :
    (newRuninfo db s qs f).1.subjects = db.subjects.map (fun x => if x.id == s.id then { s with nextrun := nextrunAfter s.nextrun } else x)
    ∧ (s.nextrun.month = 2 → s.nextrun.day = 29 → nextrunAfter s.nextrun = ⟨s.nextrun.year + 1, 2, 28⟩)
    ∧ (¬(s.nextrun.month = 2 ∧ s.nextrun.day = 29) → nextrunAfter s.nextrun = ⟨s.nextrun.year + 1, s.nextrun.month, s.nextrun.day⟩) := by
  refine ⟨newRuninfo_subjects db s qs f, ?_, ?_⟩
  · intro h2 h29
    simp [nextrunAfter, h2, h29]
  · intro hno
    cases hb : (s.nextrun.month == 2 && s.nextrun.day == 29) with
    | true =>
      exfalso
      simp only [Bool.and_eq_true, beq_iff_eq] at hb
      exact hno hb
    | false => simp [nextrunAfter, hb]

/-- Concrete check of the advancement rule: the leap-day rule at Feb
29 2020 and the plain rule
at May 1 2009. -/
theorem nextrun_advances_one_year_witness :
    nextrunAfter ⟨2020, 2, 29⟩ = ⟨2021, 2, 28⟩ ∧ nextrunAfter ⟨2009, 5, 1⟩ = ⟨2010, 5, 1⟩ :=
  ⟨(nextrun_advances_one_year exDB subjLeap 0 "").2.1 rfl rfl,
   (nextrun_advances_one_year exDB subjA 0 "").2.2 (by decide)⟩

/-- Intended behavior of the `_new_runinfo` body (unreachable while
the `Run` import is missing, see `newRuninfoCall`): the run it works
with is keyed by the string
of the year of the subject's current `nextrun`: the RunInfo rows of two
subjects processed back to back whose `nextrun` years agree carry the
same run key, an already-present year key leaves the Run table
untouched, and after both calls that key occurs exactly once in the Run
table (unless duplicates pre-existed). -/
theorem run_shared_per_year (db : DB) (s1 s2 : Subject) (qs1 qs2 : Nat) (f1 f2 : String)
    (hy : s1.nextrun.year = s2.nextrun.year) :
    (newRuninfo db s1 qs1 f1).2.runid = toString s1.nextrun.year
    ∧ (newRuninfo (newRuninfo db s1 qs1 f1).1 s2 qs2 f2).2.runid = toString s1.nextrun.year
    ∧ (toString s1.nextrun.year ∈ db.runs → (newRuninfo db s1 qs1 f1).1.runs = db.runs)
    ∧ ((newRuninfo (newRuninfo db s1 qs1 f1).1 s2 qs2 f2).1.runs).count (toString s1.nextrun.year) = max (db.runs.count (toString s1.nextrun.year)) 1 := by
  have ha := newRuninfo_ret_runid db s1 qs1 f1
  have hb := newRuninfo_ret_runid (newRuninfo db s1 qs1 f1).1 s2 qs2 f2
  have hrid : toString s2.nextrun.year = toString s1.nextrun.year := by rw [hy]
  have hmem1 : toString s1.nextrun.year ∈ (newRuninfo db s1 qs1 f1).1.runs := by
    rw [newRuninfo_runs]
    by_cases hc : db.runs.contains (toString s1.nextrun.year)
    · rw [if_pos hc]; simpa using hc
    · rw [if_neg hc]; simp
  have hcount1 : ((newRuninfo db s1 qs1 f1).1.runs).count (toString s1.nextrun.year) = max (db.runs.count (toString s1.nextrun.year)) 1 := by
    rw [newRuninfo_runs]
    by_cases hc : db.runs.contains (toString s1.nextrun.year)
    · rw [if_pos hc]
      have hm : toString s1.nextrun.year ∈ db.runs := by simpa using hc
      have hpos : 0 < db.runs.count (toString s1.nextrun.year) := List.count_pos_iff.mpr hm
      omega
    · rw [if_neg hc]
      have hm : toString s1.nextrun.year ∉ db.runs := by simpa using hc
      have hz : db.runs.count (toString s1.nextrun.year) = 0 := by
        simpa using List.count_eq_zero.mpr hm
      rw [List.count_append, hz]
      simp
  have hruns2 : (newRuninfo (newRuninfo db s1 qs1 f1).1 s2 qs2 f2).1.runs = (newRuninfo db s1 qs1 f1).1.runs := by
    rw [newRuninfo_runs, hrid, if_pos (by simpa using hmem1)]
  refine ⟨ha, ?_, ?_, ?_⟩
  · rw [hb, hrid]
  · intro hm
    rw [newRuninfo_runs, if_pos (by simpa using hm)]
  · rw [hruns2, hcount1]

/-- Concrete check of run sharing: two subjects both due in 2009
processed back to
back against an empty store leave exactly one `2009` run. -/
theorem run_shared_per_year_witness :
    ((newRuninfo (newRuninfo exDB subjA 3 "1zaaa").1 subjB 3 "2zbbb").1.runs).count (toString subjA.nextrun.year) = max (exDB.runs.count (toString subjA.nextrun.year)) 1 :=
  (run_shared_per_year exDB subjA subjB 3 3 "1zaaa" "2zbbb" (by decide)).2.2.2

/-- Intended behavior of the `_new_runinfo` body (unreachable while
the `Run` import is missing, see `newRuninfoCall`): it preserves the
at-most-one-RunInfo-per-(run,
subject) invariant, and when a matching row already exists it is reused:
the call returns that row with only its questionset reassigned — its
`emailcount` and `random` token are untouched — and the table keeps its
size (no second row). -/
theorem runinfo_unique_per_subject_run (db : DB) (s : Subject) (qs : Nat) (f : String) :
    (uniqueRI db.runinfos → uniqueRI (newRuninfo db s qs f).1.runinfos)
    ∧ (∀ r0, findRunInfo db.runinfos (toString s.nextrun.year) s.id = some r0 →
        (newRuninfo db s qs f).2 = { r0 with questionset := qs }
        ∧ (newRuninfo db s qs f).2.emailcount = r0.emailcount
        ∧ (newRuninfo db s qs f).2.random = r0.random
        ∧ (newRuninfo db s qs f).1.runinfos.length = db.runinfos.length) := by
  constructor
  · intro hu rid' sid'
    cases hf : findRunInfo db.runinfos (toString s.nextrun.year) s.id with
    | some r0 =>
      obtain ⟨hret, htab⟩ := newRuninfo_found db s qs f r0 hf
      rw [htab]
      have hf' : List.find? (fun r => r.runid == toString s.nextrun.year && r.subjectId == s.id) db.runinfos = some r0 := by
        simpa [findRunInfo] using hf
      have hp := List.find?_some hf'
      simp only [Bool.and_eq_true, beq_iff_eq] at hp
      rw [countP_map_congr]
      · exact hu rid' sid'
      · intro x hx
        by_cases hk : (x.runid == toString s.nextrun.year && x.subjectId == s.id) = true
        · rw [if_pos hk]
          simp only [Bool.and_eq_true, beq_iff_eq] at hk
          simp [hp.1, hp.2, hk.1, hk.2]
        · rw [if_neg hk]
    | none =>
      obtain ⟨hret, htab⟩ := newRuninfo_created db s qs f hf
      rw [htab, List.countP_append]
      have hridn := newRuninfo_ret_runid db s qs f
      have hsidn := newRuninfo_ret_subjectId db s qs f
      by_cases hq : (((newRuninfo db s qs f).2.runid == rid') && ((newRuninfo db s qs f).2.subjectId == sid')) = true
      · simp only [Bool.and_eq_true, beq_iff_eq] at hq
        have hrid' : rid' = toString s.nextrun.year := by rw [← hq.1, hridn]
        have hsid' : sid' = s.id := by rw [← hq.2, hsidn]
        subst hrid' hsid'
        have hna : ∀ x ∈ db.runinfos, x.runid = toString s.nextrun.year → ¬ x.subjectId = s.id := by
          simpa [findRunInfo] using hf
        have hz : db.runinfos.countP (fun r => r.runid == toString s.nextrun.year && r.subjectId == s.id) = 0 := by
          rw [List.countP_eq_zero]
          intro a ha
          simp only [Bool.and_eq_true, beq_iff_eq, not_and]
          exact hna a ha
        rw [hz]
        simp only [List.countP_cons, List.countP_nil]
        split <;> simp
      · have hle := hu rid' sid'
        have h1 : ([(newRuninfo db s qs f).2].countP (fun r => r.runid == rid' && r.subjectId == sid')) = 0 := by
          rw [List.countP_eq_zero]
          intro a ha
          simp only [List.mem_singleton] at ha
          subst ha
          simpa using hq
        omega
  · intro r0 hf
    obtain ⟨hret, htab⟩ := newRuninfo_found db s qs f r0 hf
    refine ⟨hret, ?_, ?_, ?_⟩
    · rw [hret]
    · rw [hret]
    · rw [htab, List.length_map]

/-- Concrete check of row reuse: a second call against a store already
holding the
(2009, subject 1) row reuses that row, keeps its `emailcount` 2 and its
token, adds no row, and the uniqueness invariant still holds. -/
theorem runinfo_unique_per_subject_run_witness :
    uniqueRI (newRuninfo ⟨["2009"], [rowOld], [subjA]⟩ subjA 7 "1zfff").1.runinfos
    ∧ (newRuninfo ⟨["2009"], [rowOld], [subjA]⟩ subjA 7 "1zfff").2 = { rowOld with questionset := 7 }
    ∧ (newRuninfo ⟨["2009"], [rowOld], [subjA]⟩ subjA 7 "1zfff").2.emailcount = 2
    ∧ (newRuninfo ⟨["2009"], [rowOld], [subjA]⟩ subjA 7 "1zfff").1.runinfos.length = 1 := by
  have hu : uniqueRI [rowOld] := by
    intro rid sid
    simp only [List.countP_cons, List.countP_nil]
    split <;> simp
  have h2 := (runinfo_unique_per_subject_run ⟨["2009"], [rowOld], [subjA]⟩ subjA 7 "1zfff").2 rowOld (by decide)
  exact ⟨(runinfo_unique_per_subject_run ⟨["2009"], [rowOld], [subjA]⟩ subjA 7 "1zfff").1 hu, h2.1, h2.2.1, h2.2.2.2⟩

/-! ## Claim theorems: the missing Run import -/

/-- C1: the claim describes `_new_runinfo` obtaining a Run by
get-or-create on the year key and sharing it between same-year
subjects, but the staged module never binds the name `Run` (line 17
imports only `Subject`, `QuestionSet`, `RunInfo` and `Questionnaire`),
so line 52 raises `NameError` on every call: for two subjects both due
in 2009 the call errors out for each of them and no Run is ever
obtained, created or shared.  The sharing behavior itself is the
intended one: `newRuninfo`, the body under a resolved `Run`, does
satisfy it (see `run_shared_per_year`). -/
theorem run_never_obtained :
    modelsImportedNames.contains "Run" = false
    ∧ newRuninfoCall exDB subjA 3 "1zaaa" = .error "NameError: name Run is not defined"
    ∧ newRuninfoCall exDB subjB 3 "2zbbb" = .error "NameError: name Run is not defined" :=
  ⟨by decide, by decide, by decide⟩

/-- C2: the claim says every processed subject's `nextrun` advances by
one year, but `_new_runinfo` raises `NameError` at line 52 — before the
advancement of lines 59-63 — on every call, so no subject's `nextrun`
ever advances: the leap-day subject due Feb 29 2020 gets an error, not
Feb 28 2021.  The advancement rule itself is the intended one:
`nextrunAfter`, as applied by the unreachable body, satisfies it (see
`nextrun_advances_one_year`). -/
theorem nextrun_never_advances :
    newRuninfoCall exDB subjLeap 0 "3zccc" = .error "NameError: name Run is not defined"
    ∧ subjLeap.nextrun = ⟨2020, 2, 29⟩
    ∧ nextrunAfter subjLeap.nextrun = ⟨2021, 2, 28⟩ :=
  ⟨by decide, rfl, by decide⟩

/-- C3: the claim says a second `_new_runinfo` call for an unchanged
run-year reuses the existing RunInfo row, but the call raises
`NameError` at line 52 — before the RunInfo get-or-create of line 53 —
even when the store already holds the matching (2009, subject 1) row,
so the reuse path never executes.  The reuse behavior itself is the
intended one: the unreachable body satisfies it (see
`runinfo_unique_per_subject_run`). -/
theorem runinfo_reuse_never_reached :
    findRunInfo [rowOld] (toString subjA.nextrun.year) subjA.id = some rowOld
    ∧ newRuninfoCall ⟨["2009"], [rowOld], [subjA]⟩ subjA 7 "1zfff" = .error "NameError: name Run is not defined" :=
  ⟨by decide, by decide⟩
